import Mathlib

/-!
# Verification of the ess9ini irrigation core

Shallow embedding of the ess9ini backend's irrigation subsystem:
the moisture calibration helper (`utils/helpers.js`), sensor-reading
quality scoring and alert generation (`models/SensorReading.js`),
the rule-based irrigation recommendation (`services/aiService.js`),
and the irrigation-run lifecycle (`models/IrrigationEvent.js`,
`controllers/farmController.js`).

Numbers are embedded as `ℚ` (JS numbers; no float artifacts are
relevant to the verified properties).  `Math.round` is JS rounding:
half-up, i.e. `⌊x + 1/2⌋`.
-/

namespace Ess9ini

/-- JS `Math.round`: rounds half toward +∞. -/
def jsRound (x : ℚ) : ℤ := ⌊x + 1/2⌋

/-- JS truthiness of an optional numeric field: `undefined` and `0` are falsy. -/
def truthy : Option ℚ → Bool
  | none => false
  | some x => x ≠ 0

/-! ## Calibration helper (`src/utils/helpers.js`, `convertMoistureToPercentage`)

```js
const convertMoistureToPercentage = (rawValue, dryValue, wetValue) => {
  if (rawValue <= wetValue) return 100;
  if (rawValue >= dryValue) return 0;
  const percentage = ((dryValue - rawValue) / (dryValue - wetValue)) * 100;
  return Math.round(Math.max(0, Math.min(100, percentage)));
};
```
-/

def convertMoistureToPercentage (rawValue dryValue wetValue : ℚ) : ℤ :=
  if rawValue ≤ wetValue then 100
  else if rawValue ≥ dryValue then 0
  else jsRound (max 0 (min 100 (((dryValue - rawValue) / (dryValue - wetValue)) * 100)))

/-! ## Reading quality scoring (`src/models/SensorReading.js`, first pre-save hook)

The hook starts from a score of 100 and deducts:
* signal strength (optional; a JS-truthy check guards the branch):
  `< -80` → 20, else `< -70` → 10;
* battery: `< 20` → 15, else `< 40` → 5;
* `!temperature` → 5   (JS falsiness: missing **or zero**);
* `!humidity` → 5      (likewise).

Then maps the score to a band: `≥ 90` excellent, `≥ 75` good,
`≥ 60` fair, else poor.
-/

structure ReadingValues where
  moistureLevel : ℚ
  temperature : Option ℚ
  humidity : Option ℚ
  batteryLevel : ℚ
  signalStrength : Option ℚ
  deriving Repr, DecidableEq

def qualityScore (r : ReadingValues) : ℚ :=
  let s1 : ℚ :=
    if truthy r.signalStrength then
      if r.signalStrength.getD 0 < -80 then 20
      else if r.signalStrength.getD 0 < -70 then 10
      else 0
    else 0
  let s2 : ℚ :=
    if r.batteryLevel < 20 then 15
    else if r.batteryLevel < 40 then 5
    else 0
  let s3 : ℚ := if truthy r.temperature then 0 else 5
  let s4 : ℚ := if truthy r.humidity then 0 else 5
  100 - s1 - s2 - s3 - s4

def qualityBand (r : ReadingValues) : String :=
  let score := qualityScore r
  if score ≥ 90 then "excellent"
  else if score ≥ 75 then "good"
  else if score ≥ 60 then "fair"
  else "poor"

/-! ## Recommendation engine (`src/services/aiService.js`,
`generateIrrigationRecommendation`)

The function builds a `recommendation` record and mutates it in four
successive steps; the embedding mirrors each statement block as one
definition and composes them in the source's order.  The free-text
`reasoning` log entries are not modelled.  The surrounding
`try/catch` wrapper only converts thrown exceptions into
`{success:false}`; the body is exception-free, so it is not modelled
either.  Theorems over this embedding assume a non-empty
`sensorData` (on `[]` the JS code produces `NaN`s).
-/

structure SensorDatum where
  moistureLevel : ℚ
  quality : String
  zone : Option Nat
  deriving Repr, DecidableEq

structure CurrentWeather where
  humidity : ℚ
  temperature : ℚ
  deriving Repr, DecidableEq

structure ForecastDay where
  rainfall : ℚ
  deriving Repr, DecidableEq

structure WeatherData where
  current : CurrentWeather
  forecast : List ForecastDay
  deriving Repr, DecidableEq

structure FarmSettings where
  targetMoisture : Option ℚ
  deriving Repr, DecidableEq

structure Recommendation where
  action : String
  confidence : ℚ
  timing : Option String
  duration : Option ℚ
  zones : List Nat
  waterAmount : Option ℚ
  priority : String
  deriving Repr, DecidableEq

/-- The record literal initializing `recommendation`. -/
def Recommendation.init : Recommendation :=
  { action := "none", confidence := 0, timing := none, duration := none
    zones := [], waterAmount := none, priority := "low" }

/-- `sensorData.reduce((sum, r) => sum + r.moistureLevel, 0) / sensorData.length`. -/
def avgMoistureOf (sensorData : List SensorDatum) : ℚ :=
  (sensorData.map (·.moistureLevel)).sum / sensorData.length

/-- `farmSettings.targetMoisture || 80` (JS `||`: `0` and `undefined` are falsy). -/
def targetMoistureOf (s : FarmSettings) : ℚ :=
  match s.targetMoisture with
  | none => 80
  | some t => if t = 0 then 80 else t

/-- The moisture-band `if/else if` chain: sets action, confidence and priority. -/
def analyzeMoisture (avgMoisture targetMoisture : ℚ) (rec : Recommendation) :
    Recommendation :=
  if avgMoisture < targetMoisture * (4/10) then
    { rec with action := "irrigate_now", confidence := 9/10, priority := "critical" }
  else if avgMoisture < targetMoisture * (6/10) then
    { rec with action := "irrigate_soon", confidence := 7/10, priority := "high" }
  else if avgMoisture < targetMoisture * (8/10) then
    { rec with action := "schedule_irrigation", confidence := 5/10, priority := "medium" }
  else rec

/-- The `if (weatherData) { ... }` block: humidity `> 85` subtracts 0.2
confidence; first forecast day's rainfall `> 5` forces `postpone` with
confidence 0.8; temperature `> 35` sets early-morning timing.  Absent
weather data skips the whole block. -/
def analyzeWeather (weatherData : Option WeatherData) (rec : Recommendation) :
    Recommendation :=
  match weatherData with
  | none => rec
  | some w =>
    let r1 := if w.current.humidity > 85 then
        { rec with confidence := rec.confidence - 2/10 } else rec
    let r2 := match w.forecast with
      | [] => r1
      | day0 :: _ =>
        if day0.rainfall > 5 then
          { r1 with action := "postpone", confidence := 8/10 } else r1
    if w.current.temperature > 35 then
      { r2 with timing := some "early_morning" } else r2

/-- JS `action.includes('irrigate')`: substring test on the action string. -/
def includesIrrigate (action : String) : Bool :=
  (List.range (action.length + 1)).any
    (fun i => List.isPrefixOf "irrigate".data (action.data.drop i))

/-- The `if (recommendation.action.includes('irrigate'))` block: duration
clamped to [10,60] from the moisture deficit, water amount at 5 L/min,
zones below `target×0.7` (each defaulting to zone 1, and to `[1]` when
none qualify). -/
def computeIrrigationParams (sensorData : List SensorDatum)
    (avgMoisture targetMoisture : ℚ) (rec : Recommendation) : Recommendation :=
  if includesIrrigate rec.action then
    let moistureDeficit := max 0 (targetMoisture - avgMoisture)
    let duration := min 60 (max 10 (moistureDeficit * (5/10)))
    let zones := (sensorData.filter
        (fun r => r.moistureLevel < targetMoisture * (7/10))).map
      (fun r => match r.zone with | none => 1 | some z => if z = 0 then 1 else z)
    { rec with duration := some duration, waterAmount := some (duration * 5)
               zones := if zones = [] then [1] else zones }
  else rec

/-- `sensorData.filter(r => r.quality === 'good').length / sensorData.length`. -/
def dataQualityOf (sensorData : List SensorDatum) : ℚ :=
  (sensorData.filter (fun r => r.quality = "good")).length / sensorData.length

def generateIrrigationRecommendation (sensorData : List SensorDatum)
    (weatherData : Option WeatherData) (farmSettings : FarmSettings) :
    Recommendation :=
  let avgMoisture := avgMoistureOf sensorData
  let targetMoisture := targetMoistureOf farmSettings
  let r1 := analyzeMoisture avgMoisture targetMoisture Recommendation.init
  let r2 := analyzeWeather weatherData r1
  let r3 := computeIrrigationParams sensorData avgMoisture targetMoisture r2
  { r3 with confidence := r3.confidence * dataQualityOf sensorData }

/-- Modelled from the spec (§4.4 step 1), for comparison with the code:
the spec's aggregation discards poor-quality readings whenever at least
one non-poor reading exists, and only then takes the arithmetic mean. -/
def specAggregateMoisture (sensorData : List SensorDatum) : ℚ :=
  let nonPoor := sensorData.filter (fun r => r.quality ≠ "poor")
  if nonPoor = [] then avgMoistureOf sensorData else avgMoistureOf nonPoor

/-! ## Alert generation (`src/models/SensorReading.js`, second pre-save hook)

The hook loads the owning sensor, resets `this.alerts = []` and pushes
alerts from the reading's values and the sensor's thresholds.  If the
sensor is not found the hook returns early and the alerts are left
untouched.  The free-text `message` strings are not modelled.
A reading document is saved by appending it to the store of readings:
the "alert store" of the system is the collection of (unacknowledged)
alerts embedded in the stored readings.
-/

structure MoistureThresholdCfg where
  enabled : Bool
  low : ℚ
  high : ℚ
  deriving Repr, DecidableEq

structure LowBatteryCfg where
  enabled : Bool
  threshold : ℚ
  deriving Repr, DecidableEq

structure Sensor where
  id : Nat
  moistureThreshold : MoistureThresholdCfg
  lowBattery : LowBatteryCfg
  lastCalibrated : ℚ
  deriving Repr, DecidableEq

structure Alert where
  type : String
  severity : String
  acknowledged : Bool
  deriving Repr, DecidableEq

structure SensorReadingDoc where
  sensorId : Nat
  readings : ReadingValues
  quality : String
  alerts : List Alert
  deriving Repr, DecidableEq

/-- The alert list rebuilt by the hook (`this.alerts = []` followed by the
pushes, in source order; `now` is `Date.now()` in ms). -/
def computeAlerts (sensor : Sensor) (r : ReadingValues) (now : ℚ) : List Alert :=
  let a1 : List Alert :=
    if sensor.moistureThreshold.enabled then
      if r.moistureLevel ≤ sensor.moistureThreshold.low then
        [{ type := "low_moisture", severity := "critical", acknowledged := false }]
      else if r.moistureLevel ≥ sensor.moistureThreshold.high then
        [{ type := "high_moisture", severity := "warning", acknowledged := false }]
      else []
    else []
  let a2 : List Alert :=
    if sensor.lowBattery.enabled then
      if r.batteryLevel ≤ sensor.lowBattery.threshold then
        [{ type := "low_battery"
           severity := if r.batteryLevel ≤ 10 then "critical" else "warning"
           acknowledged := false }]
      else []
    else []
  let a3 : List Alert :=
    if r.moistureLevel < 0 ∨ r.moistureLevel > 100 then
      [{ type := "sensor_error", severity := "critical", acknowledged := false }]
    else []
  let a4 : List Alert :=
    if (now - sensor.lastCalibrated) / (1000 * 60 * 60 * 24) > 180 then
      [{ type := "calibration_needed", severity := "info", acknowledged := false }]
    else []
  a1 ++ a2 ++ a3 ++ a4

/-- The whole hook on a reading document (`if (!sensor) return next()`). -/
def generateAlerts (sensor : Option Sensor) (doc : SensorReadingDoc) (now : ℚ) :
    SensorReadingDoc :=
  match sensor with
  | none => doc
  | some s => { doc with alerts := computeAlerts s doc.readings now }

/-- Saving a new reading: both pre-save hooks (quality, then alerts) run on
the document, then it is inserted into the collection. -/
def saveReading (store : List SensorReadingDoc) (sensor : Option Sensor)
    (doc : SensorReadingDoc) (now : ℚ) : List SensorReadingDoc :=
  store ++ [generateAlerts sensor { doc with quality := qualityBand doc.readings } now]

/-- Unacknowledged alerts held in the store for a given (sensorId, type). -/
def pendingAlertCount (store : List SensorReadingDoc) (sid : Nat) (ty : String) : Nat :=
  (store.map (fun d =>
    if d.sensorId = sid then
      (d.alerts.filter (fun a => a.type = ty && !a.acknowledged)).length
    else 0)).sum

/-! ## Irrigation run lifecycle

Two layers exist in the source with different document shapes:

* `src/models/IrrigationEvent.js` — the mongoose schema with nested
  `schedule`/`waterAmount`/`results` fields and the instance methods
  `start`/`complete`/`cancel` (none of which checks the current status before
  mutating), plus schema validators (`results.efficiency` bounded by 0 and
  100, non-negative water volumes, closed status enum).
* `src/controllers/farmController.js` — `startIrrigation`,
  `stopIrrigation` and `scheduleIrrigation`, which query and update the
  event collection with flat `startTime`/`endTime` fields and perform the
  status checks (`IRRIGATION_ACTIVE`, `IRRIGATION_NOT_RUNNING`).

Authorization checks and farm population are not modelled; error strings
are the `AppError` codes.
-/

/-- `results.efficiency` as persisted: absent, a finite number, or a
non-finite JS number (`waterUsed / 0`), which every bound check rejects. -/
inductive EffField where
  | unset : EffField
  | finite : ℤ → EffField
  | infinite : EffField
  deriving Repr, DecidableEq

structure IrrigationRun where
  farmId : Nat
  status : String
  duration : ℚ
  plannedWater : ℚ
  waterUsed : ℚ
  efficiency : EffField
  moistureIncrease : List ℚ
  actualStartTime : Option ℚ
  actualEndTime : Option ℚ
  notes : String
  deriving Repr, DecidableEq

/-- The schema validators relevant to the modelled fields
(`duration` 1–480, non-negative volumes, `results.efficiency` within
[0,100], status drawn from the enum). -/
def saveValidate (r : IrrigationRun) : Except String IrrigationRun :=
  if ¬ (1 ≤ r.duration ∧ r.duration ≤ 480) then .error "Duration out of range"
  else if ¬ (0 ≤ r.plannedWater) then .error "Water amount cannot be negative"
  else if ¬ (0 ≤ r.waterUsed) then .error "Water used cannot be negative"
  else match r.efficiency with
  | .infinite => .error "Efficiency cannot exceed 100%"
  | .finite e =>
    if e > 100 then .error "Efficiency cannot exceed 100%"
    else if e < 0 then .error "Efficiency cannot be negative"
    else validStatus r
  | .unset => validStatus r
where
  validStatus (r : IrrigationRun) : Except String IrrigationRun :=
    if r.status ∈ ["pending", "running", "completed", "failed", "cancelled"]
    then .ok r else .error "Invalid status"

/-- `methods.complete`: the in-memory mutation (no status check in the
source).  `waterUsed` is the JS argument (`undefined`/`0` falsy). -/
def completeDoc (run : IrrigationRun) (now : ℚ) (waterUsed : Option ℚ)
    (moistureReadings : List ℚ) : IrrigationRun :=
  let r1 := { run with status := "completed", actualEndTime := some now }
  let r2 :=
    if truthy waterUsed then
      { r1 with waterUsed := waterUsed.getD 0
                efficiency :=
                  if run.plannedWater = 0 then .infinite
                  else .finite (jsRound (waterUsed.getD 0 / run.plannedWater * 100)) }
    else r1
  if moistureReadings ≠ [] then { r2 with moistureIncrease := moistureReadings } else r2

/-- `methods.complete` returns `this.save()`. -/
def methodComplete (run : IrrigationRun) (now : ℚ) (waterUsed : Option ℚ)
    (moistureReadings : List ℚ) : Except String IrrigationRun :=
  saveValidate (completeDoc run now waterUsed moistureReadings)

/-- `methods.cancel`: unconditional status change plus a notes annotation. -/
def cancelDoc (run : IrrigationRun) (reason : String) : IrrigationRun :=
  { run with status := "cancelled"
             notes := if run.notes ≠ "" then run.notes ++ "\nCancelled: " ++ reason
                      else "Cancelled: " ++ reason }

def methodCancel (run : IrrigationRun) (reason : String) : Except String IrrigationRun :=
  saveValidate (cancelDoc run reason)

/-- What actually reaches the persistent store from a `save()`: the mutated
document if validation passes, the previously stored one otherwise. -/
def applySave (stored mutated : IrrigationRun) : IrrigationRun :=
  match saveValidate mutated with
  | .ok r => r
  | .error _ => stored

/-- Event document as the controller writes it (`farmController.js`). -/
structure CtrlEvent where
  id : Nat
  farmId : Nat
  status : String
  duration : ℚ
  zones : List String
  startTime : ℚ
  endTime : Option ℚ
  actualDuration : Option ℤ
  deriving Repr, DecidableEq

/-- `duration || 30` (JS `||`: `undefined` and `0` fall back to 30). -/
def durationOrDefault : Option ℚ → ℚ
  | none => 30
  | some d => if d = 0 then 30 else d

/-- `zones || ['all']` (a present array is truthy even when empty). -/
def zonesOrDefault : Option (List String) → List String
  | none => ["all"]
  | some zs => zs

/-- `startIrrigation`: farm lookup, then the `findOne({farmId,
status:'running'})` guard, then `IrrigationEvent.create` with
`status:'running'`.  Fresh ids come from the store size (inserts only
append). -/
def startIrrigationOp (farms : List Nat) (store : List CtrlEvent) (farmId : Nat)
    (duration : Option ℚ) (zones : Option (List String)) (now : ℚ) :
    Except String (List CtrlEvent) :=
  if farmId ∉ farms then .error "FARM_NOT_FOUND"
  else match store.find? (fun e => e.farmId == farmId && e.status == "running") with
  | some _ => .error "IRRIGATION_ACTIVE"
  | none =>
    .ok (store ++ [{ id := store.length, farmId := farmId, status := "running"
                     duration := durationOrDefault duration
                     zones := zonesOrDefault zones, startTime := now
                     endTime := none, actualDuration := none }])

/-- `stopIrrigation`: `findById`, reject unless the event is `running`,
then mark it completed with `endTime` and the rounded actual duration in
minutes (times in ms). -/
def stopIrrigationOp (store : List CtrlEvent) (eventId : Nat) (now : ℚ) :
    Except String (List CtrlEvent) :=
  match store.find? (fun e => e.id == eventId) with
  | none => .error "EVENT_NOT_FOUND"
  | some e =>
    if e.status ≠ "running" then .error "IRRIGATION_NOT_RUNNING"
    else .ok (store.map (fun x =>
      if x.id == eventId then
        { x with status := "completed", endTime := some now
                 actualDuration := some (jsRound ((now - x.startTime) / 60000)) }
      else x))

/-- `scheduleIrrigation`: creates a `pending` event after the farm check. -/
def scheduleIrrigationOp (farms : List Nat) (store : List CtrlEvent) (farmId : Nat)
    (scheduledTime : ℚ) (duration : Option ℚ) (zones : Option (List String)) :
    Except String (List CtrlEvent) :=
  if farmId ∉ farms then .error "FARM_NOT_FOUND"
  else
    .ok (store ++ [{ id := store.length, farmId := farmId, status := "pending"
                     duration := durationOrDefault duration
                     zones := zonesOrDefault zones, startTime := scheduledTime
                     endTime := none, actualDuration := none }])

/-- Event stores reachable from the empty collection through the
controller's irrigation endpoints, executed sequentially. -/
inductive ReachableStore : List CtrlEvent → Prop where
  | init : ReachableStore []
  | start (farms farmId : _) (duration : Option ℚ) (zones : Option (List String))
      (now : ℚ) (s s' : List CtrlEvent) : ReachableStore s →
      startIrrigationOp farms s farmId duration zones now = .ok s' →
      ReachableStore s'
  | stop (eventId : Nat) (now : ℚ) (s s' : List CtrlEvent) : ReachableStore s →
      stopIrrigationOp s eventId now = .ok s' → ReachableStore s'
  | schedule (farms farmId : _) (scheduledTime : ℚ) (duration : Option ℚ)
      (zones : Option (List String)) (s s' : List CtrlEvent) : ReachableStore s →
      scheduleIrrigationOp farms s farmId scheduledTime duration zones = .ok s' →
      ReachableStore s'

/-- Number of events with status `running` for a farm. -/
def runningCount (store : List CtrlEvent) (f : Nat) : Nat :=
  store.countP (fun e => e.farmId == f && e.status == "running")

/-! ## Theorems -/

theorem jsRound_nonneg {x : ℚ} (h : 0 ≤ x) : 0 ≤ jsRound x :=
  Int.le_floor.mpr (by push_cast; linarith)

theorem jsRound_le {x : ℚ} {n : ℤ} (h : x ≤ (n : ℚ)) : jsRound x ≤ n := by
  have hlt : jsRound x < n + 1 := Int.floor_lt.mpr (by push_cast; linarith)
  omega

/-- C3: `convertMoistureToPercentage` returns 100 when `raw ≤ wet`,
0 when (that fails and) `raw ≥ dry`, and otherwise the linear
interpolation `(dry-raw)/(dry-wet)×100` rounded to the nearest integer
and clamped to [0,100]; the result always lies in [0,100]; and
`toPercentage(595,595,239)=0`, `toPercentage(239,595,239)=100`,
`toPercentage(417,595,239)=50`. -/
theorem convertMoistureToPercentage_spec (raw dry wet : ℚ) :
    (raw ≤ wet → convertMoistureToPercentage raw dry wet = 100) ∧
    (wet < raw → dry ≤ raw → convertMoistureToPercentage raw dry wet = 0) ∧
    (wet < raw → raw < dry →
      convertMoistureToPercentage raw dry wet
        = max 0 (min 100 (jsRound ((dry - raw) / (dry - wet) * 100)))) ∧
    (0 ≤ convertMoistureToPercentage raw dry wet ∧
      convertMoistureToPercentage raw dry wet ≤ 100) ∧
    convertMoistureToPercentage 595 595 239 = 0 ∧
    convertMoistureToPercentage 239 595 239 = 100 ∧
    convertMoistureToPercentage 417 595 239 = 50 := by
  refine ⟨?_, ?_, ?_, ?_, ?_, ?_, ?_⟩
  · intro h
    simp [convertMoistureToPercentage, h]
  · intro h1 h2
    rw [convertMoistureToPercentage, if_neg (by linarith), if_pos (by exact h2)]
  · intro h1 h2
    have hdw : (0:ℚ) < dry - wet := by linarith
    have hdr : (0:ℚ) < dry - raw := by linarith
    have hp0 : (0:ℚ) < (dry - raw) / (dry - wet) * 100 := by positivity
    have hp100 : (dry - raw) / (dry - wet) * 100 < 100 := by
      rw [div_mul_eq_mul_div, div_lt_iff₀ hdw]
      nlinarith
    rw [convertMoistureToPercentage, if_neg (by linarith), if_neg (by simp; linarith)]
    rw [max_eq_right (le_min (by linarith) hp0.le), min_eq_right hp100.le,
      min_eq_right (jsRound_le (n := 100) (by push_cast; linarith)),
      max_eq_right (jsRound_nonneg hp0.le)]
  · rw [convertMoistureToPercentage]
    split_ifs with h1 h2
    · norm_num
    · norm_num
    · constructor
      · exact jsRound_nonneg (le_max_left 0 _)
      · refine jsRound_le (n := 100) ?_
        push_cast
        exact max_le (by norm_num) (min_le_left _ _)
  · norm_num [convertMoistureToPercentage]
  · norm_num [convertMoistureToPercentage]
  · norm_num [convertMoistureToPercentage, jsRound]

/-- Witness for C3: a concrete instantiation of the interpolation branch. -/
theorem convertMoistureToPercentage_spec_witness :
    convertMoistureToPercentage 300 595 239
      = max 0 (min 100 (jsRound ((595 - 300) / (595 - 239) * 100))) :=
  (convertMoistureToPercentage_spec 300 595 239).2.2.1 (by norm_num) (by norm_num)

/-- C8 (failing input): the quality hook's `!this.readings.temperature`
check treats a *present* temperature of 0 °C as a missing value, against
its own `// Check for missing optional readings` comment: a reading with
signal −85 dBm, full battery, temperature 0 and no humidity scores 70
(band `fair`) instead of the documented 75 (band `good`). -/
theorem qualityScore_zero_temperature_bug :
    qualityScore { moistureLevel := 50, temperature := some 0, humidity := none
                   batteryLevel := 100, signalStrength := some (-85) } = 70 ∧
    qualityBand { moistureLevel := 50, temperature := some 0, humidity := none
                  batteryLevel := 100, signalStrength := some (-85) } = "fair" := by
  constructor
  · norm_num [qualityScore, truthy]
  · norm_num [qualityBand, qualityScore, truthy]

theorem includesIrrigate_now : includesIrrigate "irrigate_now" = true := by decide

theorem includesIrrigate_soon : includesIrrigate "irrigate_soon" = true := by decide

/-- `'schedule_irrigation'.includes('irrigate')` is `false` ("irrigation"
does not contain "irrigate"), so the parameter block is skipped there. -/
theorem includesIrrigate_schedule : includesIrrigate "schedule_irrigation" = false := by
  decide

theorem includesIrrigate_none : includesIrrigate "none" = false := by decide

theorem includesIrrigate_postpone : includesIrrigate "postpone" = false := by decide

theorem computeIrrigationParams_action (d : List SensorDatum) (a t : ℚ)
    (rec : Recommendation) : (computeIrrigationParams d a t rec).action = rec.action := by
  rw [computeIrrigationParams]
  split <;> rfl

theorem computeIrrigationParams_confidence (d : List SensorDatum) (a t : ℚ)
    (rec : Recommendation) :
    (computeIrrigationParams d a t rec).confidence = rec.confidence := by
  rw [computeIrrigationParams]
  split <;> rfl

theorem generate_action_eq (data : List SensorDatum) (w : Option WeatherData)
    (s : FarmSettings) :
    (generateIrrigationRecommendation data w s).action
      = (analyzeWeather w (analyzeMoisture (avgMoistureOf data)
          (targetMoistureOf s) Recommendation.init)).action := by
  rw [generateIrrigationRecommendation]
  exact computeIrrigationParams_action ..

theorem generate_confidence_eq (data : List SensorDatum) (w : Option WeatherData)
    (s : FarmSettings) :
    (generateIrrigationRecommendation data w s).confidence
      = (analyzeWeather w (analyzeMoisture (avgMoistureOf data)
          (targetMoistureOf s) Recommendation.init)).confidence
        * dataQualityOf data := by
  rw [generateIrrigationRecommendation]
  rw [computeIrrigationParams_confidence]

/-- C4: the moisture-band chain selects `irrigate_now`/0.9 below 0.4×target,
`irrigate_soon`/0.7 below 0.6×target, `schedule_irrigation`/0.5 below
0.8×target and leaves `none`/0 otherwise; and the concrete instance
mean = 20, target = 80 with a no-rain forecast yields `irrigate_now`
with confidence 0.9 ≥ 0.8. -/
theorem recommendation_band_spec :
    (∀ m t : ℚ, m < t * (4/10) →
      (analyzeMoisture m t Recommendation.init).action = "irrigate_now" ∧
      (analyzeMoisture m t Recommendation.init).confidence = 9/10) ∧
    (∀ m t : ℚ, 0 ≤ t → t * (4/10) ≤ m → m < t * (6/10) →
      (analyzeMoisture m t Recommendation.init).action = "irrigate_soon" ∧
      (analyzeMoisture m t Recommendation.init).confidence = 7/10) ∧
    (∀ m t : ℚ, 0 ≤ t → t * (6/10) ≤ m → m < t * (8/10) →
      (analyzeMoisture m t Recommendation.init).action = "schedule_irrigation" ∧
      (analyzeMoisture m t Recommendation.init).confidence = 5/10) ∧
    (∀ m t : ℚ, 0 ≤ t → t * (8/10) ≤ m →
      (analyzeMoisture m t Recommendation.init).action = "none" ∧
      (analyzeMoisture m t Recommendation.init).confidence = 0) ∧
    ((generateIrrigationRecommendation [{ moistureLevel := 20, quality := "good", zone := none }]
        (some { current := { humidity := 50, temperature := 30 }
                forecast := [{ rainfall := 0 }] })
        { targetMoisture := some 80 }).action = "irrigate_now" ∧
      (generateIrrigationRecommendation [{ moistureLevel := 20, quality := "good", zone := none }]
        (some { current := { humidity := 50, temperature := 30 }
                forecast := [{ rainfall := 0 }] })
        { targetMoisture := some 80 }).confidence ≥ 8/10) := by
  refine ⟨?_, ?_, ?_, ?_, ?_⟩
  · intro m t h
    rw [analyzeMoisture, if_pos h]
    exact ⟨rfl, rfl⟩
  · intro m t ht h1 h2
    rw [analyzeMoisture, if_neg (not_lt.mpr h1), if_pos h2]
    exact ⟨rfl, rfl⟩
  · intro m t ht h1 h2
    rw [analyzeMoisture, if_neg (by nlinarith), if_neg (not_lt.mpr h1), if_pos h2]
    exact ⟨rfl, rfl⟩
  · intro m t ht h
    rw [analyzeMoisture, if_neg (by nlinarith), if_neg (by nlinarith),
      if_neg (not_lt.mpr h)]
    exact ⟨rfl, rfl⟩
  · constructor
    · rw [generate_action_eq]
      norm_num [analyzeMoisture, analyzeWeather, avgMoistureOf, targetMoistureOf,
        Recommendation.init]
    · rw [generate_confidence_eq]
      norm_num [analyzeMoisture, analyzeWeather, avgMoistureOf, targetMoistureOf,
        dataQualityOf, Recommendation.init]

/-- Witness for C4: the second band at mean 40, target 80. -/
theorem recommendation_band_spec_witness :
    (analyzeMoisture 40 80 Recommendation.init).action = "irrigate_soon" ∧
    (analyzeMoisture 40 80 Recommendation.init).confidence = 7/10 :=
  recommendation_band_spec.2.1 40 80 (by norm_num) (by norm_num) (by norm_num)

/-- C5 (counterexample): with one poor reading at 0% and one good reading
at 80% against a target of 80, the spec's aggregation (poor readings
discarded) gives a mean of 80 and therefore action `none`, but the code
averages over *all* readings (mean 40) and answers `irrigate_soon`:
poor-quality readings are not excluded from the mean. -/
theorem aggregation_poor_not_excluded :
    avgMoistureOf [{ moistureLevel := 0, quality := "poor", zone := none },
        { moistureLevel := 80, quality := "good", zone := none }] = 40 ∧
    specAggregateMoisture [{ moistureLevel := 0, quality := "poor", zone := none },
        { moistureLevel := 80, quality := "good", zone := none }] = 80 ∧
    (generateIrrigationRecommendation
        [{ moistureLevel := 0, quality := "poor", zone := none },
          { moistureLevel := 80, quality := "good", zone := none }]
        none { targetMoisture := some 80 }).action = "irrigate_soon" ∧
    (analyzeMoisture 80 80 Recommendation.init).action = "none" := by
  refine ⟨?_, ?_, ?_, ?_⟩
  · norm_num [avgMoistureOf]
  · norm_num [specAggregateMoisture, avgMoistureOf, List.filter,
      show (decide (("good":String) = "poor")) = false from by decide,
      show (decide (("poor":String) = "poor")) = true from by decide]
  · rw [generate_action_eq]
    norm_num [analyzeMoisture, analyzeWeather, avgMoistureOf, targetMoistureOf,
      Recommendation.init]
  · norm_num [analyzeMoisture, Recommendation.init]

/-- C5 (amended): every reading, poor-quality ones included, enters the
arithmetic mean, and the chosen action depends on the readings' qualities
in no way: relabelling qualities never changes the action, and the action
is the moisture band of the all-readings mean (weather-adjusted). -/
theorem aggregation_mean_uses_all_readings :
    (∀ (data : List SensorDatum) (w : Option WeatherData) (s : FarmSettings),
      (generateIrrigationRecommendation data w s).action
        = (analyzeWeather w (analyzeMoisture (avgMoistureOf data)
            (targetMoistureOf s) Recommendation.init)).action) ∧
    (∀ (data : List SensorDatum) (w : Option WeatherData) (s : FarmSettings)
        (g : String → String),
      (generateIrrigationRecommendation
          (data.map (fun r => { r with quality := g r.quality })) w s).action
        = (generateIrrigationRecommendation data w s).action) := by
  constructor
  · intro data w s
    exact generate_action_eq data w s
  · intro data w s g
    rw [generate_action_eq, generate_action_eq]
    have : avgMoistureOf (data.map (fun r => { r with quality := g r.quality }))
        = avgMoistureOf data := by
      simp [avgMoistureOf, List.map_map, Function.comp_def]
    rw [this]

theorem analyzeMoisture_confidence_bounds (m t : ℚ) :
    0 ≤ (analyzeMoisture m t Recommendation.init).confidence ∧
    (analyzeMoisture m t Recommendation.init).confidence ≤ 9/10 := by
  rw [analyzeMoisture]
  split_ifs <;> norm_num [Recommendation.init]

theorem analyzeWeather_confidence_cases (w : WeatherData) (rec : Recommendation) :
    (analyzeWeather (some w) rec).confidence = 8/10 ∨
    (analyzeWeather (some w) rec).confidence = rec.confidence ∨
    (analyzeWeather (some w) rec).confidence = rec.confidence - 2/10 := by
  rw [analyzeWeather]
  rcases w.forecast with _ | ⟨day0, rest⟩ <;> dsimp only <;> split_ifs <;> simp

theorem analyzeWeather_confidence_bounds (w : Option WeatherData)
    (rec : Recommendation) (h0 : 0 ≤ rec.confidence) (h9 : rec.confidence ≤ 9/10) :
    -(1/5) ≤ (analyzeWeather w rec).confidence ∧
    (analyzeWeather w rec).confidence ≤ 9/10 := by
  match w with
  | none =>
    rw [analyzeWeather]
    exact ⟨by linarith, h9⟩
  | some wd =>
    rcases analyzeWeather_confidence_cases wd rec with h | h | h <;> rw [h] <;>
      constructor <;> linarith

theorem dataQuality_bounds (data : List SensorDatum) (h : data ≠ []) :
    0 ≤ dataQualityOf data ∧ dataQualityOf data ≤ 1 := by
  have hlen : 0 < (data.length : ℚ) := by
    have := List.length_pos.mpr h
    exact_mod_cast this
  constructor
  · exact div_nonneg (by positivity) hlen.le
  · rw [dataQualityOf, div_le_one hlen]
    exact_mod_cast List.length_filter_le _ data

/-- C6 (counterexample): a single `good` reading at the target with 90%
ambient humidity and no rain yields confidence −0.2 — the final
confidence is *not* clamped to [0,1] and can go negative; and a single
`excellent` low-moisture reading yields confidence 0, because the final
multiplier counts only readings whose quality is exactly `'good'`,
not good + excellent. -/
theorem confidence_not_clamped :
    (generateIrrigationRecommendation
        [{ moistureLevel := 80, quality := "good", zone := none }]
        (some { current := { humidity := 90, temperature := 30 }
                forecast := [{ rainfall := 0 }] })
        { targetMoisture := some 80 }).confidence = -(1/5) ∧
    (generateIrrigationRecommendation
        [{ moistureLevel := 10, quality := "excellent", zone := none }]
        none { targetMoisture := some 80 }).confidence = 0 := by
  constructor
  · rw [generate_confidence_eq]
    norm_num [analyzeMoisture, analyzeWeather, avgMoistureOf, targetMoistureOf,
      dataQualityOf, Recommendation.init, List.filter,
      show (decide (("good":String) = "good")) = true from by decide]
  · rw [generate_confidence_eq]
    norm_num [analyzeMoisture, analyzeWeather, avgMoistureOf, targetMoistureOf,
      dataQualityOf, Recommendation.init, List.filter,
      show (decide (("excellent":String) = "good")) = false from by decide]

/-- C6 (amended): for non-empty input, the final confidence equals the
band- and forecast-adjusted confidence multiplied by the fraction of
readings whose quality is exactly `'good'` (excellent ones are not
counted), with no clamping; the result always lies in [−0.2, 0.9] —
in particular it can be negative, but never exceeds 1. -/
theorem confidence_formula_spec (data : List SensorDatum) (w : Option WeatherData)
    (s : FarmSettings) (h : data ≠ []) :
    (generateIrrigationRecommendation data w s).confidence
      = (analyzeWeather w (analyzeMoisture (avgMoistureOf data)
          (targetMoistureOf s) Recommendation.init)).confidence
        * dataQualityOf data ∧
    -(1/5) ≤ (generateIrrigationRecommendation data w s).confidence ∧
    (generateIrrigationRecommendation data w s).confidence ≤ 9/10 := by
  obtain ⟨hb0, hb9⟩ := analyzeMoisture_confidence_bounds (avgMoistureOf data)
    (targetMoistureOf s)
  obtain ⟨hw0, hw9⟩ := analyzeWeather_confidence_bounds w _ hb0 hb9
  obtain ⟨hq0, hq1⟩ := dataQuality_bounds data h
  refine ⟨generate_confidence_eq data w s, ?_, ?_⟩
  · rw [generate_confidence_eq]
    nlinarith
  · rw [generate_confidence_eq]
    nlinarith

/-- Witness for C6 (amended): one good reading, no weather data. -/
theorem confidence_formula_spec_witness :
    (generateIrrigationRecommendation
        [{ moistureLevel := 20, quality := "good", zone := none }]
        none { targetMoisture := none }).confidence
      = (analyzeWeather none (analyzeMoisture
          (avgMoistureOf [{ moistureLevel := 20, quality := "good", zone := none }])
          (targetMoistureOf { targetMoisture := none }) Recommendation.init)).confidence
        * dataQualityOf [{ moistureLevel := 20, quality := "good", zone := none }] ∧
    -(1/5) ≤ (generateIrrigationRecommendation
        [{ moistureLevel := 20, quality := "good", zone := none }]
        none { targetMoisture := none }).confidence ∧
    (generateIrrigationRecommendation
        [{ moistureLevel := 20, quality := "good", zone := none }]
        none { targetMoisture := none }).confidence ≤ 9/10 :=
  confidence_formula_spec
    [{ moistureLevel := 20, quality := "good", zone := none }] none
    { targetMoisture := none } (by simp)

/-- C9 (counterexample): with the forecast unavailable (`weatherData`
absent), the engine's output on a low-moisture reading is *identical* to
its output under benign weather — confidence 0.9, with no penalty ever
subtracted and nothing resembling an informational alert in the result:
the claimed missing-forecast confidence penalty and alert do not exist. -/
theorem missing_forecast_no_penalty :
    generateIrrigationRecommendation
        [{ moistureLevel := 20, quality := "good", zone := none }]
        none { targetMoisture := some 80 }
      = generateIrrigationRecommendation
        [{ moistureLevel := 20, quality := "good", zone := none }]
        (some { current := { humidity := 50, temperature := 30 }
                forecast := [{ rainfall := 0 }] })
        { targetMoisture := some 80 } ∧
    (generateIrrigationRecommendation
        [{ moistureLevel := 20, quality := "good", zone := none }]
        none { targetMoisture := some 80 }).confidence = 9/10 := by
  have hbenign : ∀ rec : Recommendation,
      analyzeWeather (some { current := { humidity := 50, temperature := 30 },
                             forecast := [{ rainfall := 0 }] }) rec = rec := by
    intro rec
    rw [analyzeWeather]
    norm_num
  constructor
  · rw [generateIrrigationRecommendation, generateIrrigationRecommendation,
      hbenign, analyzeWeather]
  · rw [generate_confidence_eq]
    norm_num [analyzeMoisture, analyzeWeather, avgMoistureOf, targetMoistureOf,
      dataQualityOf, Recommendation.init, List.filter,
      show (decide (("good":String) = "good")) = true from by decide]

/-- C9 (amended): when the forecast provider yields nothing, the engine
still produces a recommendation from the sensor data alone and the
request is not aborted — the weather block is simply skipped, which is
observationally identical to a benign boundary forecast (humidity 85,
temperature 35, rainfall 5); no confidence penalty is applied and no
informational alert is emitted. -/
theorem missing_forecast_sensor_only (data : List SensorDatum) (s : FarmSettings) :
    generateIrrigationRecommendation data none s
      = generateIrrigationRecommendation data
          (some { current := { humidity := 85, temperature := 35 }
                  forecast := [{ rainfall := 5 }] }) s := by
  have hskip : ∀ rec : Recommendation,
      analyzeWeather (some { current := { humidity := 85, temperature := 35 },
                             forecast := [{ rainfall := 5 }] }) rec = rec := by
    intro rec
    rw [analyzeWeather]
    norm_num
  rw [generateIrrigationRecommendation, generateIrrigationRecommendation,
    hskip, analyzeWeather]

/-- Whether a `save()` resolved (validation passed). -/
def isOkRun : Except String IrrigationRun → Bool
  | .ok _ => true
  | .error _ => false

theorem completeDoc_status (run : IrrigationRun) (now : ℚ) (w : Option ℚ)
    (rs : List ℚ) : (completeDoc run now w rs).status = "completed" := by
  rw [completeDoc]
  split_ifs <;> rfl

theorem completeDoc_actualEndTime (run : IrrigationRun) (now : ℚ) (w : Option ℚ)
    (rs : List ℚ) : (completeDoc run now w rs).actualEndTime = some now := by
  rw [completeDoc]
  split_ifs <;> rfl

theorem completeDoc_efficiency_pos (run : IrrigationRun) (now : ℚ) (w : ℚ)
    (rs : List ℚ) (hp : run.plannedWater ≠ 0) (hw : w ≠ 0) :
    (completeDoc run now (some w) rs).efficiency
      = .finite (jsRound (w / run.plannedWater * 100)) := by
  have ht : truthy (some w) = true := by simp [truthy, hw]
  rw [completeDoc]
  simp only [ht, if_true, if_neg hp, Option.getD_some]
  split_ifs <;> simp

theorem saveValidate_finite (r : IrrigationRun) (e : ℤ)
    (he : r.efficiency = .finite e) :
    saveValidate r =
      if ¬ (1 ≤ r.duration ∧ r.duration ≤ 480) then .error "Duration out of range"
      else if ¬ (0 ≤ r.plannedWater) then .error "Water amount cannot be negative"
      else if ¬ (0 ≤ r.waterUsed) then .error "Water used cannot be negative"
      else if e > 100 then .error "Efficiency cannot exceed 100%"
      else if e < 0 then .error "Efficiency cannot be negative"
      else saveValidate.validStatus r := by
  rw [saveValidate, he]

theorem saveValidate_excess_efficiency (r : IrrigationRun) (e : ℤ)
    (he : r.efficiency = .finite e) (hgt : 100 < e) :
    ∀ r', saveValidate r ≠ .ok r' := by
  intro r'
  rw [saveValidate_finite r e he]
  split_ifs with h1 h2 h3
  · simp
  · simp
  · simp
  · simp

/-- Shared inversion: a resolved save with a finite efficiency obeys the
schema's 0–100 bound. -/
theorem saveValidate_ok_efficiency (r r' : IrrigationRun) (e : ℤ)
    (he : r.efficiency = .finite e) (h : saveValidate r = .ok r') :
    0 ≤ e ∧ e ≤ 100 := by
  rw [saveValidate_finite r e he] at h
  split_ifs at h with h1 h2 h3 h4 h5
  all_goals first
  | simp at h
  | omega

/-- C2 (counterexample): `methods.complete` performs no status check:
called on a `cancelled` run it resolves (no `ConflictError`) and the run
becomes `completed` with a fresh `actualEnd` — the cancelled terminal
state is silently overwritten. -/
theorem complete_on_cancelled_run :
    (completeDoc
        { farmId := 1, status := "cancelled", duration := 30, plannedWater := 150
          waterUsed := 0, efficiency := .unset, moistureIncrease := []
          actualStartTime := none, actualEndTime := none, notes := "Cancelled: rain" }
        5000 (some 100) []).status = "completed" ∧
    isOkRun (methodComplete
        { farmId := 1, status := "cancelled", duration := 30, plannedWater := 150
          waterUsed := 0, efficiency := .unset, moistureIncrease := []
          actualStartTime := none, actualEndTime := none, notes := "Cancelled: rain" }
        5000 (some 100) []) = true := by
  constructor
  · exact completeDoc_status ..
  · rw [methodComplete, completeDoc]
    norm_num [truthy, saveValidate, saveValidate.validStatus, jsRound, isOkRun]

/-- C2 (amended): the model's `complete()` unconditionally transitions any
run — whatever its current status — to `completed` and restamps
`actualEnd`; the status check guarding completion lives only in the
`stopIrrigation` controller, which rejects a non-`running` event with
`IRRIGATION_NOT_RUNNING` and leaves the store unchanged. -/
theorem complete_unguarded_stop_guarded :
    (∀ (run : IrrigationRun) (now : ℚ) (w : Option ℚ) (rs : List ℚ),
      (completeDoc run now w rs).status = "completed" ∧
      (completeDoc run now w rs).actualEndTime = some now) ∧
    (∀ (store : List CtrlEvent) (eventId : Nat) (now : ℚ) (e : CtrlEvent),
      store.find? (fun x => x.id == eventId) = some e → e.status ≠ "running" →
      stopIrrigationOp store eventId now = .error "IRRIGATION_NOT_RUNNING") := by
  constructor
  · intro run now w rs
    exact ⟨completeDoc_status .., completeDoc_actualEndTime ..⟩
  · intro store eventId now e hfind hstatus
    rw [stopIrrigationOp, hfind]
    exact if_pos hstatus

/-- Witness for C2 (amended): completing a cancelled document and stopping
a cancelled controller event. -/
theorem complete_unguarded_stop_guarded_witness :
    ((completeDoc
        { farmId := 2, status := "cancelled", duration := 20, plannedWater := 100
          waterUsed := 0, efficiency := .unset, moistureIncrease := []
          actualStartTime := none, actualEndTime := none, notes := "" }
        7 none []).status = "completed" ∧
      (completeDoc
        { farmId := 2, status := "cancelled", duration := 20, plannedWater := 100
          waterUsed := 0, efficiency := .unset, moistureIncrease := []
          actualStartTime := none, actualEndTime := none, notes := "" }
        7 none []).actualEndTime = some 7) ∧
    stopIrrigationOp
        [{ id := 0, farmId := 2, status := "cancelled", duration := 20, zones := ["all"]
           startTime := 0, endTime := none, actualDuration := none }] 0 7
      = .error "IRRIGATION_NOT_RUNNING" :=
  ⟨complete_unguarded_stop_guarded.1 _ 7 none [],
    complete_unguarded_stop_guarded.2 _ 0 7
      { id := 0, farmId := 2, status := "cancelled", duration := 20, zones := ["all"]
        startTime := 0, endTime := none, actualDuration := none }
      (by rfl) (by simp)⟩

/-- C10: the schema bound `results.efficiency ≤ 100` blocks completion
whenever `round(actualVolume/plannedVolume×100) > 100`: the save is
rejected, the persisted run keeps its previous state, and conversely any
completion whose save resolves has a rounded volume ratio of at most
100%. -/
theorem efficiency_bound_blocks_completion :
    (∀ (run : IrrigationRun) (now : ℚ) (w : ℚ) (rs : List ℚ),
      run.status = "running" → 0 < run.plannedWater → 0 < w →
      100 < jsRound (w / run.plannedWater * 100) →
      isOkRun (methodComplete run now (some w) rs) = false ∧
      applySave run (completeDoc run now (some w) rs) = run) ∧
    (∀ (run : IrrigationRun) (now : ℚ) (w : ℚ) (rs : List ℚ) (r' : IrrigationRun),
      0 < run.plannedWater → 0 < w →
      methodComplete run now (some w) rs = .ok r' →
      jsRound (w / run.plannedWater * 100) ≤ 100) := by
  constructor
  · intro run now w rs _ hp hw hgt
    have heff := completeDoc_efficiency_pos run now w rs hp.ne' hw.ne'
    have herr := saveValidate_excess_efficiency (completeDoc run now (some w) rs)
      _ heff hgt
    constructor
    · rw [methodComplete]
      cases hs : saveValidate (completeDoc run now (some w) rs) with
      | ok r' => exact absurd hs (herr r')
      | error msg => rw [isOkRun]
    · rw [applySave]
      cases hs : saveValidate (completeDoc run now (some w) rs) with
      | ok r' => exact absurd hs (herr r')
      | error msg => rfl
  · intro run now w rs r' hp hw hok
    have heff := completeDoc_efficiency_pos run now w rs hp.ne' hw.ne'
    exact (saveValidate_ok_efficiency _ r' _ heff hok).2

/-- Witness for C10: planned volume 100, actual 150 → rounded ratio 150
exceeds 100 and the save is rejected, leaving the run `running`. -/
theorem efficiency_bound_blocks_completion_witness :
    isOkRun (methodComplete
        { farmId := 3, status := "running", duration := 30, plannedWater := 100
          waterUsed := 0, efficiency := .unset, moistureIncrease := []
          actualStartTime := some 0, actualEndTime := none, notes := "" }
        60 (some 150) []) = false ∧
    applySave
        { farmId := 3, status := "running", duration := 30, plannedWater := 100
          waterUsed := 0, efficiency := .unset, moistureIncrease := []
          actualStartTime := some 0, actualEndTime := none, notes := "" }
        (completeDoc
          { farmId := 3, status := "running", duration := 30, plannedWater := 100
            waterUsed := 0, efficiency := .unset, moistureIncrease := []
            actualStartTime := some 0, actualEndTime := none, notes := "" }
          60 (some 150) [])
      = { farmId := 3, status := "running", duration := 30, plannedWater := 100
          waterUsed := 0, efficiency := .unset, moistureIncrease := []
          actualStartTime := some 0, actualEndTime := none, notes := "" } :=
  efficiency_bound_blocks_completion.1
    { farmId := 3, status := "running", duration := 30, plannedWater := 100
      waterUsed := 0, efficiency := .unset, moistureIncrease := []
      actualStartTime := some 0, actualEndTime := none, notes := "" }
    60 150 [] rfl (by norm_num) (by norm_num) (by norm_num [jsRound])

/-- A sensor with moisture alerts enabled (low 30, high 90), battery
alerts disabled, freshly calibrated; used to exhibit duplicate alerts. -/
def sensorA : Sensor :=
  { id := 7, moistureThreshold := { enabled := true, low := 30, high := 90 },
    lowBattery := { enabled := false, threshold := 20 }, lastCalibrated := 0 }

/-- First low-moisture reading document from `sensorA`. -/
def docA : SensorReadingDoc :=
  { sensorId := 7,
    readings := { moistureLevel := 10, temperature := some 20, humidity := some 50,
                  batteryLevel := 100, signalStrength := some (-50) },
    quality := "good", alerts := [] }

/-- Second low-moisture reading document from `sensorA`. -/
def docB : SensorReadingDoc :=
  { sensorId := 7,
    readings := { moistureLevel := 12, temperature := some 20, humidity := some 50,
                  batteryLevel := 100, signalStrength := some (-50) },
    quality := "good", alerts := [] }

/-- C7 (counterexample): the alert "store" is the collection of alerts
embedded in the saved readings, and nothing deduplicates across readings:
two low-moisture readings from the same sensor leave **two** pending
(sensorId, `low_moisture`) alerts, not one. -/
theorem duplicate_pending_alerts :
    pendingAlertCount
      (saveReading (saveReading [] (some sensorA) docA 0) (some sensorA) docB 0)
      7 "low_moisture" = 2 := by
  norm_num [pendingAlertCount, saveReading, generateAlerts, computeAlerts,
    qualityBand, qualityScore, truthy, sensorA, docA, docB, List.filter]

/-- C7 (amended): deduplication happens only *within* one reading
document: the pre-save hook rebuilds `alerts` from scratch (`this.alerts
= []`), so a single document never carries two alerts of the same type,
and re-running the hook replaces the previous alerts instead of
appending; across documents, pending duplicates of the same
(sensorId, type) pair can coexist in the store. -/
theorem alerts_replaced_within_document :
    (∀ (sensor : Sensor) (r : ReadingValues) (now : ℚ),
      ((computeAlerts sensor r now).map (fun a => a.type)).Nodup) ∧
    (∀ (sensor : Sensor) (doc : SensorReadingDoc) (now : ℚ),
      generateAlerts (some sensor) (generateAlerts (some sensor) doc now) now
        = generateAlerts (some sensor) doc now) := by
  constructor
  · intro sensor r now
    simp only [computeAlerts]
    split_ifs <;> decide
  · intro sensor doc now
    simp [generateAlerts]

theorem startIrrigationOp_ok_inv {farms : List Nat} {store : List CtrlEvent}
    {farmId : Nat} {duration : Option ℚ} {zones : Option (List String)} {now : ℚ}
    {s' : List CtrlEvent}
    (h : startIrrigationOp farms store farmId duration zones now = .ok s') :
    (∀ e ∈ store, ¬ (e.farmId == farmId && e.status == "running") = true) ∧
    s' = store ++ [{ id := store.length, farmId := farmId, status := "running",
                     duration := durationOrDefault duration,
                     zones := zonesOrDefault zones, startTime := now,
                     endTime := none, actualDuration := none }] := by
  rw [startIrrigationOp] at h
  split_ifs at h
  split at h
  · simp at h
  · rename_i hfind
    simp only [Except.ok.injEq] at h
    exact ⟨List.find?_eq_none.mp hfind, h.symm⟩

theorem stopIrrigationOp_ok_inv {store : List CtrlEvent} {eventId : Nat} {now : ℚ}
    {s' : List CtrlEvent} (h : stopIrrigationOp store eventId now = .ok s') :
    s' = store.map (fun x =>
      if x.id == eventId then
        { x with status := "completed", endTime := some now,
                 actualDuration := some (jsRound ((now - x.startTime) / 60000)) }
      else x) := by
  rw [stopIrrigationOp] at h
  split at h
  · simp at h
  · split_ifs at h
    simp only [Except.ok.injEq] at h
    exact h.symm

theorem scheduleIrrigationOp_ok_inv {farms : List Nat} {store : List CtrlEvent}
    {farmId : Nat} {scheduledTime : ℚ} {duration : Option ℚ}
    {zones : Option (List String)} {s' : List CtrlEvent}
    (h : scheduleIrrigationOp farms store farmId scheduledTime duration zones = .ok s') :
    s' = store ++ [{ id := store.length, farmId := farmId, status := "pending",
                     duration := durationOrDefault duration,
                     zones := zonesOrDefault zones, startTime := scheduledTime,
                     endTime := none, actualDuration := none }] := by
  rw [scheduleIrrigationOp] at h
  split_ifs at h
  simp only [Except.ok.injEq] at h
  exact h.symm

/-- C1: the `startIrrigation` controller rejects with `IRRIGATION_ACTIVE`
whenever a running run already exists for the farm, and consequently
every store reachable from empty through the controller's irrigation
endpoints (executed sequentially) holds at most one `running` run per
farm. -/
theorem single_running_run_per_farm :
    (∀ (farms : List Nat) (store : List CtrlEvent) (farmId : Nat)
        (duration : Option ℚ) (zones : Option (List String)) (now : ℚ)
        (e : CtrlEvent), e ∈ store → e.farmId = farmId → e.status = "running" →
        farmId ∈ farms →
      startIrrigationOp farms store farmId duration zones now
        = .error "IRRIGATION_ACTIVE") ∧
    (∀ s, ReachableStore s → ∀ f, runningCount s f ≤ 1) := by
  constructor
  · intro farms store farmId duration zones now e hmem hfarm hstat hfarms
    rw [startIrrigationOp, if_neg (not_not_intro hfarms)]
    cases hfind : store.find? (fun x => x.farmId == farmId && x.status == "running") with
    | some x => rfl
    | none =>
      exact absurd (by simp [hfarm, hstat])
        (List.find?_eq_none.mp hfind e hmem)
  · intro s hs
    induction hs with
    | init =>
      intro f
      simp [runningCount]
    | start farms farmId duration zones now s s' _ hok ih =>
      intro f
      obtain ⟨hnone, rfl⟩ := startIrrigationOp_ok_inv hok
      rw [runningCount, List.countP_append]
      by_cases hf : farmId = f
      · have hzero : s.countP (fun e => e.farmId == f && e.status == "running") = 0 :=
          List.countP_eq_zero.mpr (fun e he => hf ▸ hnone e he)
        simp [List.countP_cons, hzero, hf]
      · have : s.countP (fun e => e.farmId == f && e.status == "running") ≤ 1 := ih f
        simp only [List.countP_cons, List.countP_nil]
        have hne : ((farmId == f) = false) := by simpa using hf
        simpa [runningCount, hne] using this
    | stop eventId now s s' _ hok ih =>
      intro f
      obtain rfl := stopIrrigationOp_ok_inv hok
      rw [runningCount, List.countP_map]
      refine le_trans (List.countP_mono_left ?_) (ih f)
      intro a _ hp
      by_cases hid : (a.id == eventId) = true
      · simp [Function.comp, hid] at hp
      · simpa [Function.comp, hid] using hp
    | schedule farms farmId t duration zones s s' _ hok ih =>
      intro f
      obtain rfl := scheduleIrrigationOp_ok_inv hok
      rw [runningCount, List.countP_append]
      have : s.countP (fun e => e.farmId == f && e.status == "running") ≤ 1 := ih f
      simp only [List.countP_cons, List.countP_nil]
      simpa [runningCount] using this

/-- Witness for C1: a two-step derivation — schedule then start — reaches
a store whose every farm has at most one running run, and a second start
against the farm with the running run is rejected. -/
theorem single_running_run_per_farm_witness :
    startIrrigationOp [4] [{ id := 0, farmId := 4, status := "running",
                             duration := 30, zones := ["all"], startTime := 0,
                             endTime := none, actualDuration := none }]
      4 none none 1 = .error "IRRIGATION_ACTIVE" ∧
    runningCount [{ id := 0, farmId := 4, status := "running",
                    duration := 30, zones := ["all"], startTime := 0,
                    endTime := none, actualDuration := none }] 4 ≤ 1 := by
  constructor
  · exact single_running_run_per_farm.1 [4] _ 4 none none 1
      { id := 0, farmId := 4, status := "running", duration := 30,
        zones := ["all"], startTime := 0, endTime := none,
        actualDuration := none }
      (by simp) rfl rfl (by simp)
  · refine single_running_run_per_farm.2 _ ?_ 4
    have h0 : ReachableStore ([] : List CtrlEvent) := ReachableStore.init
    have h1 : startIrrigationOp [4] [] 4 none none 0
        = .ok [{ id := 0, farmId := 4, status := "running",
                 duration := 30, zones := ["all"], startTime := 0,
                 endTime := none, actualDuration := none }] := by
      rw [startIrrigationOp]
      norm_num [durationOrDefault, zonesOrDefault, List.find?]
    exact ReachableStore.start [4] 4 none none 0 _ _ h0 h1

end Ess9ini
